import Mathlib

/-!
Verification of the cryo-ET halfset reconstruction pipeline
(`halftomo_reconstruct.py`, `pyDDW.py`) against its specification.

The Python sources are shallowly embedded: filesystem presence checks become
`Bool` fields, captured subprocess output becomes a `String` parameter, the
Python substring operator `in` becomes `containsSubstr`, and file writes
become explicit lists of written chunks in write order.
-/

namespace CryoET

/-- Bin factor, module constant `BIN = 6` in `halftomo_reconstruct.py`. -/
def BIN : Nat := 6

/-- GPU device id, module constant `GPU = 0` in `halftomo_reconstruct.py`. -/
def GPU : Nat := 0

/-- Remote archive root, module constant `DB_DIR` in `halftomo_reconstruct.py`. -/
def DB_DIR : String :=
  "/root/cloud-data/its-cmo-darwin-magellan-workspaces-folders/WS_Cryoem/CX_LMR/Project_directories/cryo-et-data"

/-- Embedding of the Python substring test `pat in s`: `pat` occurs as a
contiguous substring of `s`. -/
def containsSubstr (s pat : String) : Bool :=
  decide (pat.data <:+: s.data)

/-! ## Metadata classifier (`check_metadata`, halftomo_reconstruct.py:63-95)

A dataset directory is inspected for four sidecar file classes; each glob
result is nonempty or empty, embedded as a `Bool`. -/

/-- Presence of the four sidecar file classes for one dataset:
`xf` = alignment-transform file `{name}.xf`, `ali` = aligned stack
`{name}_ali.mrc`, `tlt` = tilt-angle file `{name}.tlt`, `xtilt` = x-tilt
file `{name}.xtilt`. -/
structure Metadata where
  xf : Bool
  ali : Bool
  tlt : Bool
  xtilt : Bool
deriving DecidableEq

/-- Embedding of `check_metadata` (halftomo_reconstruct.py:63-95): the chain
of truthiness tests on the four glob results.  Returns 0 (no metadata),
1 (all metadata, run tilt directly), or 2 (partial metadata, run newstack
then tilt). -/
def check_metadata (m : Metadata) : Nat :=
  if (!m.xf && !m.ali) || !m.tlt || !m.xtilt then 0
  else if m.ali && m.tlt && m.xtilt then 1
  else if m.xf && m.tlt && m.xtilt && !m.ali then 2
  else 0

/-! ## External step runners (halftomo_reconstruct.py:243-387)

Each runner captures the stdout of an external IMOD command and classifies
the outcome by substring search.  The captured output is the `String`
parameter; logging calls have no bearing on the returned boolean. -/

/-- Embedding of `newstack` (halftomo_reconstruct.py:243-274): success iff
stdout contains "finished successfully"; an "ERROR" marker is logged and
yields `false`; output with neither marker also yields `false`. -/
def newstack (out : String) : Bool :=
  if containsSubstr out "finished successfully" then true
  else if containsSubstr out "ERROR" then false
  else false

/-- Embedding of `tilt` (halftomo_reconstruct.py:277-329): runs the evens
then the odds reconstruction, counts per-part successes, and returns
`true` iff the counter reaches 2. -/
def tilt (outEvens outOdds : String) : Bool :=
  let success : Nat := 0
  let success := if containsSubstr outEvens "finished successfully" then success + 1 else success
  let success := if containsSubstr outOdds "finished successfully" then success + 1 else success
  success == 2

/-- Embedding of `trimvol` (halftomo_reconstruct.py:332-387): runs the evens
then the odds rotation, counts per-part successes, and returns `true` iff
the counter reaches 2. -/
def trimvol (outEvens outOdds : String) : Bool :=
  let success : Nat := 0
  let success := if containsSubstr outEvens "finished successfully" then success + 1 else success
  let success := if containsSubstr outOdds "finished successfully" then success + 1 else success
  success == 2

/-! ## Even/odd inclusion lists (halftomo_reconstruct.py:155-156) -/

/-- The 1-indexed slice numbers of the even-index tilts:
`[str(i+1) for i in range(z) if i % 2 == 0]`. -/
def evensNums (z : Nat) : List Nat :=
  ((List.range z).filter (fun i => i % 2 == 0)).map (fun i => i + 1)

/-- The 1-indexed slice numbers of the odd-index tilts:
`[str(i+1) for i in range(z) if i % 2 == 1]`. -/
def oddsNums (z : Nat) : List Nat :=
  ((List.range z).filter (fun i => i % 2 == 1)).map (fun i => i + 1)

/-- The rendered evens INCLUDE line (halftomo_reconstruct.py:155). -/
def evensStr (z : Nat) : String :=
  "INCLUDE " ++ String.intercalate "," ((evensNums z).map toString)

/-- The rendered odds INCLUDE line (halftomo_reconstruct.py:156). -/
def oddsStr (z : Nat) : String :=
  "INCLUDE " ++ String.intercalate "," ((oddsNums z).map toString)

/-! ## Reconstruction thickness (halftomo_reconstruct.py:193-194) -/

/-- Binning ratio `rec_bin = full_mage_size[0] // rec_image_size[0]` (integer division). -/
def rec_bin (fullX recX : Nat) : Nat := fullX / recX

/-- Thickness `rec_thickness = int(rec_bin * rec_image_size[2])`. -/
def rec_thickness (fullX recX recZ : Nat) : Nat := rec_bin fullX recX * recZ

/-! ## Job-file renderer (`construct_coms`, halftomo_reconstruct.py:98-240)

File writes are modeled as an ordered list of (filename, chunks) pairs,
where the chunks are exactly the strings the Python code writes, in write
order; the file's byte content is the concatenation of its chunks. -/

/-- The chunks of `newst.com` written by `write_text`
(halftomo_reconstruct.py:110-126), one per Python string literal. -/
def newstLines (name : String) : List String := [
  "$setenv IMOD_OUTPUT_FORMAT MRC\n",
  "$newstack -StandardInput\n",
  "AntialiasFilter\t4\n",
  "InputFile\t" ++ name ++ ".mrc\n",
  "OutputFile\t" ++ name ++ "_ali.mrc\n",
  "TransformFile\t" ++ name ++ ".xf\n",
  "LinearInterpolation\t0\n",
  "BinByFactor\t" ++ toString BIN ++ "\n",
  "TaperAtFill\t1,1\n",
  "AdjustOrigin\n",
  "OffsetsInXandY\t0,0\n",
  "#DistortionField\t.idf\n",
  "ImagesAreBinned\t1\n",
  "#GradientFile\t" ++ name ++ ".maggrad\n",
  "$if (-e ./savework) ./savework"
]

/-- The chunks of a freshly synthesized tilt com file
(halftomo_reconstruct.py:196-240), parameterized by the per-half output
filename and INCLUDE line. -/
def freshTiltLines (name outFile : String) (fullX fullY thickness : Nat)
    (inc : String) : List String := [
  "$setenv IMOD_OUTPUT_FORMAT MRC\n",
  "$tilt -StandardInput\n",
  "FakeSIRTiterations\t10\n",
  "InputProjections " ++ name ++ "_ali.mrc\n",
  "OutputFile\t" ++ outFile ++ "\n",
  "IMAGEBINNED\t" ++ toString BIN ++ "\n",
  "TILTFILE " ++ name ++ ".tlt\n",
  "XTILTFILE " ++ name ++ ".xtilt\n",
  "UseGPU\t" ++ toString GPU ++ "\n",
  "THICKNESS\t" ++ toString thickness ++ "\n",
  "RADIAL .35 .035\n",
  "FalloffIsTrueSigma 1\n",
  "SCALE 0 0.00144\n",
  "PERPENDICULAR\n",
  "MODE 1\n",
  "FULLIMAGE\t " ++ toString fullX ++ " " ++ toString fullY ++ "\n",
  "SUBSETSTART\t0 0\n",
  "AdjustOrigin 1\n",
  inc,
  "$if (-e ./savework) ./savework"
]

/-- One iteration of the template-rewriting loop
(halftomo_reconstruct.py:162-185): the chained `if SUBSTR in line` tests,
each inspecting the current (possibly already rewritten) line; an
`OutputFile` match writes the per-half output line and skips the remaining
tests (`continue`). -/
def substLine (name outFile : String) (line : String) : String :=
  let l1 := if containsSubstr line "InputProjections" then
    "InputProjections " ++ name ++ "_ali.mrc\n" else line
  if containsSubstr l1 "OutputFile" then "OutputFile\t" ++ outFile ++ "\n"
  else
    let l2 := if containsSubstr l1 "IMAGEBINNED" then
      "IMAGEBINNED\t" ++ toString BIN ++ "\n" else l1
    let l3 := if containsSubstr l2 "TILTFILE" then
      "TILTFILE " ++ name ++ ".tlt\n" else l2
    let l4 := if containsSubstr l3 "XTILTFILE" then
      "XTILTFILE " ++ name ++ ".xtilt\n" else l3
    let l5 := if containsSubstr l4 "useGPU" then
      "UseGPU\t    " ++ toString GPU ++ "\n" else l4
    l5

/-- Rendering a half-set tilt com from an existing `tilt.com` template
(halftomo_reconstruct.py:159-190): every template line passes through the
substitution loop and the INCLUDE line is appended at the end (without a
trailing newline, per `f.write(f'{evens}')`). -/
def renderFromTemplate (name outFile : String) (tmpl : List String)
    (inc : String) : List String :=
  tmpl.map (substLine name outFile) ++ [inc]

/-- The substring keys whose presence in a template line triggers a
substitution in the rewriting loop. -/
def tiltKeys : List String :=
  ["InputProjections", "OutputFile", "IMAGEBINNED", "TILTFILE", "XTILTFILE", "useGPU"]

/-- Whether some substitution key occurs in the line. -/
def matchesAnyKey (line : String) : Bool :=
  tiltKeys.any (fun k => containsSubstr line k)

/-- Embedding of `construct_coms` (halftomo_reconstruct.py:98-240) as the
ordered list of (filename, chunks) writes.  `tmpl` is `some` of the lines of
a preexisting `tilt.com` (as Python file iteration yields them), or `none`
when no template exists; `fullZ` is the nz of the raw stack, `fullX, fullY`
its nx, ny; `recX, recZ` the nx, nz of the reconstructed volume. -/
def construct_coms (name : String) (status : Nat) (tmpl : Option (List String))
    (fullX fullY fullZ recX recZ : Nat) : List (String × List String) :=
  let evens := evensStr fullZ
  let odds := oddsStr fullZ
  let newstWrites := if status = 2 then [("newst.com", newstLines name)] else []
  let tiltWrites :=
    match tmpl with
    | some t =>
        [("tilt_evens.com", renderFromTemplate name (name ++ "_full_rec_evens.mrc") t evens),
         ("tilt_odds.com", renderFromTemplate name (name ++ "_full_rec_odds.mrc") t odds)]
    | none =>
        let rt := rec_thickness fullX recX recZ
        [("tilt_evens.com",
            freshTiltLines name (name ++ "_full_rec_evens.mrc") fullX fullY rt (evens ++ "\n")),
         ("tilt_odds.com",
            freshTiltLines name (name ++ "_full_rec_odds.mrc") fullX fullY rt (odds ++ "\n"))]
  newstWrites ++ tiltWrites

/-! ## Claim theorems (first group) -/

/-- C1: `check_metadata` returns exactly one of three states as a function of
sidecar presence: 0 ("absent") iff (neither transform file nor aligned stack)
or the tilt-angle file is missing or the x-tilt file is missing; 1 ("direct")
iff aligned stack, tilt-angle and x-tilt are all present; 2
("needs-realignment") iff transform file, tilt-angle and x-tilt are present
but the aligned stack is absent.  In particular a missing tilt-angle or
x-tilt file forces state 0 whatever else is present. -/
theorem check_metadata_classification :
    ∀ m : Metadata,
      (check_metadata m = 0 ∨ check_metadata m = 1 ∨ check_metadata m = 2)
      ∧ (check_metadata m = 0 ↔
          ((m.xf = false ∧ m.ali = false) ∨ m.tlt = false ∨ m.xtilt = false))
      ∧ (check_metadata m = 1 ↔ (m.ali = true ∧ m.tlt = true ∧ m.xtilt = true))
      ∧ (check_metadata m = 2 ↔
          (m.xf = true ∧ m.tlt = true ∧ m.xtilt = true ∧ m.ali = false)) := by
  intro m
  obtain ⟨xf, al, tl, xt⟩ := m
  cases xf <;> cases al <;> cases tl <;> cases xt <;> decide

/-- C5: each external-step outcome is classified from captured output by
substring search — the overall boolean equals the presence of the
"finished successfully" marker (so output containing only "ERROR", or
neither marker, yields `false`), and the two-part steps succeed iff both
their parts individually contain the success marker. -/
theorem step_outcome_classification :
    (∀ out, newstack out = containsSubstr out "finished successfully")
    ∧ (∀ out, containsSubstr out "finished successfully" = false →
        containsSubstr out "ERROR" = false → newstack out = false)
    ∧ (∀ a b, tilt a b =
        (containsSubstr a "finished successfully" && containsSubstr b "finished successfully"))
    ∧ (∀ a b, trimvol a b =
        (containsSubstr a "finished successfully" && containsSubstr b "finished successfully")) := by
  refine ⟨?_, ?_, ?_, ?_⟩
  · intro out
    unfold newstack
    by_cases h : containsSubstr out "finished successfully" = true
    · simp [h]
    · simp at h
      simp [h]
  · intro out h1 h2
    simp [newstack, h1, h2]
  · intro a b
    unfold tilt
    by_cases h1 : containsSubstr a "finished successfully" = true <;>
      by_cases h2 : containsSubstr b "finished successfully" = true <;>
        simp_all
  · intro a b
    unfold trimvol
    by_cases h1 : containsSubstr a "finished successfully" = true <;>
      by_cases h2 : containsSubstr b "finished successfully" = true <;>
        simp_all

/-- Witness for C5 at a concrete output containing neither marker. -/
theorem step_outcome_classification_witness :
    newstack "no markers here" = false :=
  step_outcome_classification.2.1 "no markers here" (by decide) (by decide)

/-- C6: the even inclusion list is the 1-indexed set of even 0-based slice
indices, the odd list is its complement within the 1-indexed slice range,
each rendered as a comma-separated INCLUDE line; for Z = 10 the rendered
lines are "INCLUDE 1,3,5,7,9" and "INCLUDE 2,4,6,8,10". -/
theorem include_lists_parity :
    (∀ z n, n ∈ evensNums z ↔ ∃ i, i < z ∧ i % 2 = 0 ∧ n = i + 1)
    ∧ (∀ z n, n ∈ oddsNums z ↔
        (n ∈ (List.range z).map (fun i => i + 1) ∧ n ∉ evensNums z))
    ∧ evensStr 10 = "INCLUDE 1,3,5,7,9"
    ∧ oddsStr 10 = "INCLUDE 2,4,6,8,10" := by
  have hev : ∀ z n, n ∈ evensNums z ↔ ∃ i, i < z ∧ i % 2 = 0 ∧ n = i + 1 := by
    intro z n
    simp only [evensNums, List.mem_map, List.mem_filter, List.mem_range]
    constructor
    · rintro ⟨i, ⟨hi, he⟩, rfl⟩
      exact ⟨i, hi, by simpa using he, rfl⟩
    · rintro ⟨i, hi, he, rfl⟩
      exact ⟨i, ⟨hi, by simpa using he⟩, rfl⟩
  refine ⟨hev, ?_, by decide, by decide⟩
  intro z n
  simp only [oddsNums, List.mem_map, List.mem_filter, List.mem_range]
  constructor
  · rintro ⟨i, ⟨hi, ho⟩, rfl⟩
    have ho2 : i % 2 = 1 := by simpa using ho
    refine ⟨⟨i, hi, rfl⟩, ?_⟩
    intro hmem
    obtain ⟨j, _, hje, hj1⟩ := (hev z (i + 1)).mp hmem
    omega
  · rintro ⟨⟨i, hi, rfl⟩, hne⟩
    refine ⟨i, ⟨hi, ?_⟩, rfl⟩
    have : i % 2 ≠ 0 := by
      intro h0
      exact hne ((hev z (i + 1)).mpr ⟨i, hi, h0, rfl⟩)
    simpa using Nat.mod_two_eq_zero_or_one i |>.resolve_left this

/-- C7: the synthesized reconstruction thickness is (full image X over
reconstructed image X, integer division) times reconstructed Z, and at the
spec's instance 4096 / 1024 * 512 it equals 2048. -/
theorem rec_thickness_formula :
    rec_thickness 4096 1024 512 = 2048
    ∧ (∀ fullX recX recZ, rec_thickness fullX recX recZ = fullX / recX * recZ)
    ∧ ∀ name outFile fullY inc,
        (freshTiltLines name outFile 4096 fullY (rec_thickness 4096 1024 512) inc).get? 9
          = some "THICKNESS\t2048\n" := by
  exact ⟨by decide, fun _ _ _ => rfl, fun _ _ _ _ => rfl⟩

/-- C4: the job-file renderer writes `newst.com` iff the classification
status is 2 ("needs-realignment"), and then before the two half-set tilt
com files; for status 1 ("direct") exactly the two half-set tilt com files
are written. -/
theorem construct_coms_newst_iff :
    ∀ name status tmpl fullX fullY fullZ recX recZ,
      ((construct_coms name status tmpl fullX fullY fullZ recX recZ).map Prod.fst
        = if status = 2 then ["newst.com", "tilt_evens.com", "tilt_odds.com"]
          else ["tilt_evens.com", "tilt_odds.com"])
      ∧ ("newst.com" ∈
          (construct_coms name status tmpl fullX fullY fullZ recX recZ).map Prod.fst
         ↔ status = 2) := by
  intro name status tmpl fullX fullY fullZ recX recZ
  have hmap : (construct_coms name status tmpl fullX fullY fullZ recX recZ).map Prod.fst
      = if status = 2 then ["newst.com", "tilt_evens.com", "tilt_odds.com"]
        else ["tilt_evens.com", "tilt_odds.com"] := by
    by_cases h : status = 2 <;> cases tmpl <;> simp [construct_coms, h]
  refine ⟨hmap, ?_⟩
  rw [hmap]
  by_cases h : status = 2 <;> simp [h]

/-- Witness for C4 at status 1 and status 2 with a concrete template. -/
theorem construct_coms_newst_iff_witness :
    (construct_coms "ts" 1 (some ["MODE 1\n"]) 4 4 4 2 2).map Prod.fst
      = ["tilt_evens.com", "tilt_odds.com"]
    ∧ (construct_coms "ts" 2 none 4 4 4 2 2).map Prod.fst
      = ["newst.com", "tilt_evens.com", "tilt_odds.com"] := by
  constructor
  · have h := (construct_coms_newst_iff "ts" 1 (some ["MODE 1\n"]) 4 4 4 2 2).1
    simpa using h
  · have h := (construct_coms_newst_iff "ts" 2 none 4 4 4 2 2).1
    simpa using h

/-- C8: rendering the half-set tilt coms from an existing template maps each
template line through the substitution loop and appends exactly one INCLUDE
chunk at the end of each file; a line in which none of the substitution keys
occurs passes through the loop verbatim, so it is reproduced unchanged in
both output files. -/
theorem template_roundtrip :
    ∀ (name : String) (t : List String) fullX fullY fullZ recX recZ,
      construct_coms name 1 (some t) fullX fullY fullZ recX recZ =
        [("tilt_evens.com",
            t.map (substLine name (name ++ "_full_rec_evens.mrc")) ++ [evensStr fullZ]),
         ("tilt_odds.com",
            t.map (substLine name (name ++ "_full_rec_odds.mrc")) ++ [oddsStr fullZ])]
      ∧ ∀ line outFile, matchesAnyKey line = false →
          substLine name outFile line = line := by
  intro name t fullX fullY fullZ recX recZ
  constructor
  · simp [construct_coms, renderFromTemplate]
  · intro line outFile h
    simp only [matchesAnyKey, tiltKeys, List.any_cons, List.any_nil,
      Bool.or_eq_false_iff] at h
    obtain ⟨h1, h2, h3, h4, h5, h6, -⟩ := h
    simp [substLine, h1, h2, h3, h4, h5, h6]

/-- Witness for C8: a concrete substitution-free template line survives the
loop unchanged. -/
theorem template_roundtrip_witness :
    substLine "ts" "out.mrc" "RADIAL .35 .035\n" = "RADIAL .35 .035\n" :=
  (template_roundtrip "ts" [] 0 0 0 0 0).2 "RADIAL .35 .035\n" "out.mrc" (by decide)

/-! ## Pipeline driver (`generate_halfsets`, halftomo_reconstruct.py:390-414)

One dataset bundles its sidecar presence with the captured stdout of each
potential external invocation (the subprocess oracle).  A dataset's trace
records its classification, the pipeline stages reached in order
(rendering counts as a stage), and the step logged as an error, if any. -/

/-- Pipeline stages of one dataset: com-file rendering (`construct_coms`)
and the three external step runners. -/
inductive Step where
  | render : Step
  | newstack : Step
  | tilt : Step
  | trimvol : Step
deriving DecidableEq

/-- One dataset of the batch: sidecar presence plus the stdout that each
external command would produce if invoked. -/
structure Dataset where
  meta : Metadata
  newstackOut : String
  tiltEvensOut : String
  tiltOddsOut : String
  trimvolEvensOut : String
  trimvolOddsOut : String
deriving DecidableEq

/-- Trace of the per-dataset body of `generate_halfsets`: the classification
`prog`, the stages run in order, and the step whose failure was logged with
"Terminating this dataset" (if any). -/
structure DatasetTrace where
  prog : Nat
  steps : List Step
  failed : Option Step
deriving DecidableEq

/-- The per-dataset body of the loop in `generate_halfsets`
(halftomo_reconstruct.py:400-414), for a dataset whose classification is
nonzero: render the com files, run `newstack` only when `prog == 2`, then
`tilt`, then `trimvol`, stopping at the first runner that returns false. -/
def runDataset (d : Dataset) : DatasetTrace :=
  let prog := check_metadata d.meta
  let pre := if prog = 2 then [Step.render, Step.newstack] else [Step.render]
  if prog = 2 ∧ newstack d.newstackOut = false then
    ⟨prog, pre, some Step.newstack⟩
  else if tilt d.tiltEvensOut d.tiltOddsOut = false then
    ⟨prog, pre ++ [Step.tilt], some Step.tilt⟩
  else if trimvol d.trimvolEvensOut d.trimvolOddsOut = false then
    ⟨prog, pre ++ [Step.tilt, Step.trimvol], some Step.trimvol⟩
  else
    ⟨prog, pre ++ [Step.tilt, Step.trimvol], none⟩

/-- The exception message raised for an "absent" dataset
(halftomo_reconstruct.py:399). -/
def absentMsg : String := "Must first transfer data from database and try again"

/-- Embedding of `generate_halfsets` (halftomo_reconstruct.py:390-414): the
sequential loop over the batch, returning the traces of the datasets
actually processed and the raised exception message, if any.  A dataset
classified 0 raises immediately, so nothing after it is processed. -/
def generate_halfsets : List Dataset → List DatasetTrace × Option String
  | [] => ([], none)
  | d :: rest =>
      if check_metadata d.meta = 0 then ([], some absentMsg)
      else
        let t := runDataset d
        let r := generate_halfsets rest
        (t :: r.1, r.2)

/-- C2: in a batch with no "absent" dataset, the driver processes every
dataset sequentially and independently (the trace list is the pointwise map
of the per-dataset body, with no exception); within one dataset, a failing
step runner is recorded as the logged error and every later step is
skipped. -/
theorem driver_isolates_failures :
    ∀ ds : List Dataset, (∀ d ∈ ds, check_metadata d.meta ≠ 0) →
      generate_halfsets ds = (ds.map runDataset, none)
      ∧ ∀ d : Dataset,
          ((check_metadata d.meta = 2 → newstack d.newstackOut = false →
              (runDataset d).failed = some Step.newstack
              ∧ Step.tilt ∉ (runDataset d).steps
              ∧ Step.trimvol ∉ (runDataset d).steps))
          ∧ (tilt d.tiltEvensOut d.tiltOddsOut = false →
              (check_metadata d.meta = 2 → newstack d.newstackOut = true) →
              (runDataset d).failed = some Step.tilt
              ∧ Step.trimvol ∉ (runDataset d).steps)
          ∧ (trimvol d.trimvolEvensOut d.trimvolOddsOut = false →
              tilt d.tiltEvensOut d.tiltOddsOut = true →
              (check_metadata d.meta = 2 → newstack d.newstackOut = true) →
              (runDataset d).failed = some Step.trimvol) := by
  intro ds hds
  constructor
  · induction ds with
    | nil => rfl
    | cons d rest ih =>
        have hd : check_metadata d.meta ≠ 0 := hds d (by simp)
        have hrest := ih (fun x hx => hds x (by simp [hx]))
        simp [generate_halfsets, hd, hrest]
  · intro d
    refine ⟨?_, ?_, ?_⟩
    · intro h2 hns
      simp only [runDataset, h2]
      simp [hns]
    · intro ht hns
      by_cases h2 : check_metadata d.meta = 2
      · simp only [runDataset, h2]
        simp [hns h2, ht]
      · simp only [runDataset]
        simp [h2, ht]
    · intro htv ht hns
      by_cases h2 : check_metadata d.meta = 2
      · simp only [runDataset, h2]
        simp [hns h2, ht, htv]
      · simp only [runDataset]
        simp [h2, ht, htv]

/-- A dataset whose only sidecars are the aligned stack, tilt-angle and
x-tilt files (classification 1), and whose tilt invocation output carries
no success marker. -/
def dFailTilt : Dataset := ⟨⟨false, true, true, true⟩, "", "", "", "", ""⟩

/-- Witness for C2: the concrete dataset `dFailTilt` fails at `tilt`, skips
`trimvol`, and the batch completes without an exception. -/
theorem driver_isolates_failures_witness :
    generate_halfsets [dFailTilt] = ([dFailTilt].map runDataset, none)
    ∧ (runDataset dFailTilt).failed = some Step.tilt
    ∧ Step.trimvol ∉ (runDataset dFailTilt).steps := by
  have h := driver_isolates_failures [dFailTilt] (by decide)
  have h2 := (h.2 dFailTilt).2.1 (by decide) (by intro hc; exact absurd hc (by decide))
  exact ⟨h.1, h2.1, h2.2⟩

/-- C3: an "absent" dataset makes the driver raise unconditionally
("Must first transfer data from database and try again"), terminating the
whole batch: only the datasets before it are processed, and none after. -/
theorem driver_absent_fatal :
    ∀ (pre : List Dataset) (d : Dataset) (post : List Dataset),
      (∀ x ∈ pre, check_metadata x.meta ≠ 0) → check_metadata d.meta = 0 →
      generate_halfsets (pre ++ d :: post) = (pre.map runDataset, some absentMsg) := by
  intro pre d post hpre hd
  induction pre with
  | nil => simp [generate_halfsets, hd]
  | cons x rest ih =>
      have hx : check_metadata x.meta ≠ 0 := hpre x (by simp)
      have hrest := ih (fun y hy => hpre y (by simp [hy]))
      simp [generate_halfsets, hx, hrest]

/-- A dataset with no sidecar files at all: classification 0 ("absent"). -/
def dAbsent : Dataset := ⟨⟨false, false, false, false⟩, "", "", "", "", ""⟩

/-- Witness for C3: with the absent dataset first, the batch raises at once
and the following dataset is never processed. -/
theorem driver_absent_fatal_witness :
    generate_halfsets [dAbsent, dFailTilt] = ([], some absentMsg) :=
  driver_absent_fatal [] dAbsent [dFailTilt] (by simp) (by decide)

/-! ## Archival sync (`sync_db`, halftomo_reconstruct.py:434-448)

Each located `halfsets` directory is given by its posix path string; the
filesystem's answer to `Path(dest).exists()` is the oracle `destExists`.
The observable behavior is the ordered list of actions taken. -/

/-- Observable actions of `sync_db`: an rsync mirror of `src` into `dest`,
an info log, or a warning log. -/
inductive SyncAction where
  | sync : String → String → SyncAction
  | log : String → SyncAction
  | warn : String → SyncAction
deriving DecidableEq

/-- Embedding of the Python index `src.split('/')[-2]`: the name of the dataset directory containing the
`halfsets` subdirectory. -/
def parentName (src : String) : String :=
  let parts := src.splitOn "/"
  parts.getD (parts.length - 2) ""

/-- The warning logged when the remote destination is missing
(halftomo_reconstruct.py:448); its `%s` is `p.name`, the batch root. -/
def skipWarnMsg (pName : String) : String :=
  pName ++ " -- Does not yet exist in database. Skipping sync to database"

/-- The info message logged after a completed rsync
(halftomo_reconstruct.py:446). -/
def syncDoneMsg (pName : String) : String :=
  pName ++ " -- Finished synching halfset reconstructions to the database"

/-- Embedding of the loop of `sync_db` (halftomo_reconstruct.py:438-448):
for each `halfsets` directory, build the destination from `DB_DIR` and the
parent dataset name; if the destination exists, rsync and log, otherwise
log a warning and move on (no exception). -/
def sync_db (pName : String) (destExists : String → Bool) :
    List String → List SyncAction
  | [] => []
  | src :: rest =>
      let dest := DB_DIR ++ "/" ++ parentName src
      (if destExists dest then
        [SyncAction.sync src dest, SyncAction.log (syncDoneMsg pName)]
      else
        [SyncAction.warn (skipWarnMsg pName)]) ++ sync_db pName destExists rest

/-- No sync action is emitted for a directory whose destination is absent:
a `sync src dest` action only arises from the branch requiring
`destExists` on the destination derived from `src`. -/
theorem sync_db_no_sync_of_missing (pName : String) (destExists : String → Bool)
    (src : String) (h : destExists (DB_DIR ++ "/" ++ parentName src) = false) :
    ∀ srcs dest, SyncAction.sync src dest ∉ sync_db pName destExists srcs := by
  intro srcs
  induction srcs with
  | nil => simp [sync_db]
  | cons y rest ih =>
      intro dest hmem
      by_cases hy : destExists (DB_DIR ++ "/" ++ parentName y) = true
      · simp only [sync_db, if_pos hy, List.cons_append, List.nil_append,
          List.mem_cons] at hmem
        rcases hmem with h1 | h1 | h1
        · rw [SyncAction.sync.injEq] at h1
          rw [h1.1] at h
          rw [h] at hy
          exact Bool.false_ne_true hy
        · exact SyncAction.noConfusion h1
        · exact ih dest h1
      · simp only [sync_db, if_neg hy, List.cons_append, List.nil_append,
          List.mem_cons] at hmem
        rcases hmem with h1 | h1
        · exact SyncAction.noConfusion h1
        · exact ih dest h1

/-- C9 counterexample: the skip warning does not identify the skipped
dataset.  With batch root "batch", the action lists for two different
skipped datasets are identical, and the warning text does not contain the
dataset name. -/
theorem sync_warning_counterexample :
    sync_db "batch" (fun _ => false) ["batch/dsAAA/halfsets"]
      = sync_db "batch" (fun _ => false) ["batch/dsBBB/halfsets"]
    ∧ sync_db "batch" (fun _ => false) ["batch/dsAAA/halfsets"]
      = [SyncAction.warn (skipWarnMsg "batch")]
    ∧ containsSubstr (skipWarnMsg "batch") "dsAAA" = false := by
  refine ⟨rfl, rfl, by decide⟩

/-- C9 amended: every `halfsets` directory whose remote destination is
missing is skipped without an exception — a warning naming the batch root
(not the dataset) is logged and no sync action for it is emitted — while a
directory whose destination exists is mirrored by a sync action. -/
theorem sync_db_skips_missing :
    ∀ (pName : String) (destExists : String → Bool) (srcs : List String)
      (src : String), src ∈ srcs →
      (destExists (DB_DIR ++ "/" ++ parentName src) = true →
        SyncAction.sync src (DB_DIR ++ "/" ++ parentName src)
          ∈ sync_db pName destExists srcs)
      ∧ (destExists (DB_DIR ++ "/" ++ parentName src) = false →
          SyncAction.warn (skipWarnMsg pName) ∈ sync_db pName destExists srcs
          ∧ ∀ dest, SyncAction.sync src dest ∉ sync_db pName destExists srcs) := by
  intro pName destExists srcs src hmem
  constructor
  · intro hex
    induction srcs with
    | nil => simp at hmem
    | cons y rest ih =>
        rcases List.mem_cons.mp hmem with hy | hr
        · subst hy
          simp only [sync_db, if_pos hex, List.cons_append, List.nil_append,
            List.mem_cons]
          exact Or.inl trivial
        · by_cases hy : destExists (DB_DIR ++ "/" ++ parentName y) = true
          · simp only [sync_db, if_pos hy, List.cons_append, List.nil_append,
              List.mem_cons]
            exact Or.inr (Or.inr (ih hr))
          · simp only [sync_db, if_neg hy, List.cons_append, List.nil_append,
              List.mem_cons]
            exact Or.inr (ih hr)
  · intro hmiss
    refine ⟨?_, sync_db_no_sync_of_missing pName destExists src hmiss srcs⟩
    induction srcs with
    | nil => simp at hmem
    | cons y rest ih =>
        rcases List.mem_cons.mp hmem with hy | hr
        · subst hy
          have hneg : ¬ destExists (DB_DIR ++ "/" ++ parentName src) = true := by
            simp [hmiss]
          simp only [sync_db, if_neg hneg, List.cons_append, List.nil_append,
            List.mem_cons]
          exact Or.inl trivial
        · by_cases hy : destExists (DB_DIR ++ "/" ++ parentName y) = true
          · simp only [sync_db, if_pos hy, List.cons_append, List.nil_append,
              List.mem_cons]
            exact Or.inr (Or.inr (ih hr))
          · simp only [sync_db, if_neg hy, List.cons_append, List.nil_append,
              List.mem_cons]
            exact Or.inr (ih hr)

/-- Witness for the amended C9 at a concrete batch with one missing and one
existing destination. -/
theorem sync_db_skips_missing_witness :
    SyncAction.warn (skipWarnMsg "batch")
        ∈ sync_db "batch" (fun _ => false) ["batch/dsAAA/halfsets"]
    ∧ ∀ dest, SyncAction.sync "batch/dsAAA/halfsets" dest
        ∉ sync_db "batch" (fun _ => false) ["batch/dsAAA/halfsets"] :=
  (sync_db_skips_missing "batch" (fun _ => false) ["batch/dsAAA/halfsets"]
    "batch/dsAAA/halfsets" (by simp)).2 rfl

/-! ## Denoising wrapper sampling (`pyDDW.py`)

A halfset pair is a pair of file paths.  `random.sample(range(0, k), n)` is
embedded with an oracle for the indices it would draw: the call raises
`ValueError` exactly when `n` exceeds the population size `k`, and
otherwise returns `n` distinct indices below `k` (the oracle, constrained
by those hypotheses in the theorems). -/

/-- Message of the `ValueError` raised by `random.sample` when the requested sample
exceeds the population. -/
def sampleErrMsg : String := "Sample larger than population or is negative"

/-- Embedding of `get_random_halfsets` (pyDDW.py:90-105) with default
`n = 5`: draw `n` indices into `halfsets` (via `random.sample`, whose
drawn indices are the `oracle`), then rebuild the selected pairs by
indexing, as `tuple(zip(evens, odds))` does. -/
def get_random_halfsets (halfsets : List (String × String)) (n : Nat)
    (oracle : List Nat) : Except String (List (String × String)) :=
  if halfsets.length < n then Except.error sampleErrMsg
  else Except.ok (oracle.map (fun i => halfsets.getD i ("", "")))

/-- Models the wrapper's main flow (pyDDW.py:348-354): the training sets are
sampled first and the fit configuration document is written only
afterwards, so a `ValueError` from sampling aborts before any
configuration file exists.  Returns the list of configuration files
written before model fitting starts. -/
def pyDDW_run (halfsets : List (String × String)) (oracle : List Nat) :
    Except String (List String) :=
  match get_random_halfsets halfsets 5 oracle with
  | Except.error e => Except.error e
  | Except.ok _trainingSets => Except.ok ["fit_config.yaml"]

/-- C10: the denoising wrapper always samples exactly 5 halfset pairs: a
collection of fewer than 5 pairs makes sampling raise `ValueError`, so the
wrapper aborts before writing any configuration document; a collection of
at least 5 distinct pairs yields exactly 5 distinct pairs drawn from it. -/
theorem wrapper_samples_five :
    ∀ (halfsets : List (String × String)) (oracle : List Nat),
      (halfsets.length < 5 → pyDDW_run halfsets oracle = Except.error sampleErrMsg)
      ∧ (5 ≤ halfsets.length → oracle.length = 5 → oracle.Nodup →
          (∀ i ∈ oracle, i < halfsets.length) → halfsets.Nodup →
          ∃ l, get_random_halfsets halfsets 5 oracle = Except.ok l
               ∧ l.length = 5 ∧ l.Nodup ∧ ∀ x ∈ l, x ∈ halfsets) := by
  intro halfsets oracle
  constructor
  · intro hlt
    simp [pyDDW_run, get_random_halfsets, hlt]
  · intro hge hlen hnd hbound hhnd
    have hnot : ¬ halfsets.length < 5 := by omega
    refine ⟨oracle.map (fun i => halfsets.getD i ("", "")), ?_, ?_, ?_, ?_⟩
    · simp [get_random_halfsets, hnot]
    · simp [hlen]
    · refine List.Nodup.map_on ?_ hnd
      intro i hi j hj hij
      have hib := hbound i hi
      have hjb := hbound j hj
      rw [List.getD_eq_getElem _ _ hib, List.getD_eq_getElem _ _ hjb] at hij
      have := (List.Nodup.getElem_inj_iff hhnd).mp hij
      exact this
    · intro x hx
      obtain ⟨i, hi, rfl⟩ := List.mem_map.mp hx
      have hib := hbound i hi
      rw [List.getD_eq_getElem _ _ hib]
      exact List.getElem_mem hib

/-- A concrete collection of five distinct halfset pairs. -/
def hs5 : List (String × String) :=
  [("e1_rec_evens.mrc", "e1_rec_odds.mrc"),
   ("e2_rec_evens.mrc", "e2_rec_odds.mrc"),
   ("e3_rec_evens.mrc", "e3_rec_odds.mrc"),
   ("e4_rec_evens.mrc", "e4_rec_odds.mrc"),
   ("e5_rec_evens.mrc", "e5_rec_odds.mrc")]

/-- Witness for C10: one pair is too few (sampling aborts the wrapper
before any config file is written), while five distinct pairs are sampled
in full. -/
theorem wrapper_samples_five_witness :
    pyDDW_run [("a_rec_evens.mrc", "a_rec_odds.mrc")] [0]
      = Except.error sampleErrMsg
    ∧ ∃ l, get_random_halfsets hs5 5 [0, 1, 2, 3, 4] = Except.ok l
        ∧ l.length = 5 ∧ l.Nodup ∧ ∀ x ∈ l, x ∈ hs5 :=
  ⟨(wrapper_samples_five [("a_rec_evens.mrc", "a_rec_odds.mrc")] [0]).1 (by decide),
   (wrapper_samples_five hs5 [0, 1, 2, 3, 4]).2 (by decide) rfl (by decide)
     (by decide) (by decide)⟩

end CryoET
